import Mathlib

/-!
Verification of the ProofOfTalent repository: session lifecycle, background
analysis orchestration, upload validation, and the wizard / results frontend.

The backend service (FastAPI `main.py`: Session Store, Upload Handler,
Analysis Orchestrator) is not part of the source tree; only its README,
the HTTP surface and the frontend consuming it are.  Definitions for those
components are therefore modelled from the specification (sections 3-7),
as marked by their doc comments.  The frontend components
(`AnalysisResults.tsx`, the wizard `Home` page, `DocumentUpload.tsx`,
`lib/api.ts` types) are embedded directly from the TypeScript source.
-/

namespace ProofOfTalent

/-- Processing status of a session: `pending → processing → completed | error`
(spec section 4.3; mirrored by the `status` strings of `AnalysisResult` in
`lib/api.ts`). -/
inductive Status where
  | pending
  | processing
  | completed
  | error
deriving DecidableEq, Repr

/-- Terminal statuses (spec section 3: once `completed` or `error`, no further
mutation occurs except deletion). -/
def Status.isTerminal : Status → Bool
  | .completed => true
  | .error => true
  | _ => false

/-- Error taxonomy of spec section 7. -/
inductive ApiError where
  | invalidField
  | notFound
  | invalidState
  | unsupportedType
  | tooManyFiles
  | upstream
deriving DecidableEq, Repr

/-- Gap object, from the `gaps` entries of the `AnalysisResult` interface in
`frontend/src/lib/api.ts`. -/
structure Gap where
  type : String
  severity : String
  description : String
  recommendation : String
deriving DecidableEq, Repr

/-- Roadmap milestone, from the `milestones` entries of the `AnalysisResult`
interface in `frontend/src/lib/api.ts`. -/
structure Milestone where
  title : String
  description : String
  duration_weeks : Nat
  priority : String
  evidence_to_collect : List String
  addresses_gaps : List String
deriving DecidableEq, Repr

/-- Roadmap, from the `roadmap` field of the `AnalysisResult` interface in
`frontend/src/lib/api.ts`. -/
structure Roadmap where
  milestones : List Milestone
  total_weeks : Nat
  feasibility_assessment : String
deriving DecidableEq, Repr

/-- Analysis block of the result payload, from the `analysis` field of the
`AnalysisResult` interface in `frontend/src/lib/api.ts`.  The untyped
`evidence_present: any` field is not modelled; no claim refers to it. -/
structure Analysis where
  likelihood : ℚ
  assessment_level : String
  gaps : List Gap
  strengths : List String
  overall_assessment : String
deriving DecidableEq, Repr

/-- Full result payload (the `results` field of `AnalysisResult` in
`frontend/src/lib/api.ts`). -/
structure ResultsPayload where
  field : String
  analysis : Analysis
  roadmap : Roadmap
deriving DecidableEq, Repr

/-- Total roadmap duration as the spec defines it (section 4.3 step 4:
"total roadmap duration = sum of milestone durations"). -/
def sumDurations (ms : List Milestone) : Nat :=
  (ms.map Milestone.duration_weeks).sum

/-- Questionnaire answer scalar (spec section 3: "mapping of question-id to
scalar/boolean/string"). -/
inductive AnswerValue where
  | num (n : Int)
  | bool (b : Bool)
  | text (s : String)
deriving DecidableEq, Repr

/-- Uploaded-document reference (spec section 3: "path + original filename +
content type"). -/
structure DocRef where
  path : String
  original_filename : String
  content_type : String
deriving DecidableEq, Repr

/-- An incoming file of an upload request; only its name matters to the
validation modelled here, the content is an opaque blob (spec section 4.2). -/
structure UploadFile where
  filename : String
deriving DecidableEq, Repr

/-- Modelled from the spec: the Session record of section 3 (the backend
`main.py` holding it is absent from the source tree).  Timestamps are not
modelled; no claim refers to them. -/
structure Session where
  field : String
  answers : List (String × AnswerValue)
  documents : List DocRef
  status : Status
  results : Option ResultsPayload
  errorMessage : Option String
deriving DecidableEq, Repr

/-- Modelled from the spec: the in-process Session Store of section 4.1, a
key-value table from session identifier to session state, embedded as an
association list. -/
def Store : Type := List (String × Session)

instance : DecidableEq Store := by
  unfold Store
  infer_instance

/-- Look a session up by identifier (first matching key). -/
def lookupS : Store → String → Option Session
  | [], _ => none
  | (k, v) :: rest, sid => if k = sid then some v else lookupS rest sid

/-- Write a session under an identifier, replacing an existing binding. -/
def setS : Store → String → Session → Store
  | [], sid, s => [(sid, s)]
  | (k, v) :: rest, sid, s =>
    if k = sid then (sid, s) :: rest else (k, v) :: setS rest sid s

/-- Remove every binding of an identifier. -/
def removeS : Store → String → Store
  | [], _ => []
  | (k, v) :: rest, sid =>
    if k = sid then removeS rest sid else (k, v) :: removeS rest sid

/-- The three recognized field enum values (spec sections 3 and 4.1; also the
field ids of the backend README examples). -/
def validFields : List String :=
  ["digital_technology", "arts_culture", "science_research"]

/-- A fresh session starts in `pending` with no answers, documents, or result
payload (spec sections 4.1 and 8). -/
def newSession (fld : String) : Session :=
  { field := fld, answers := [], documents := [], status := .pending,
    results := none, errorMessage := none }

/-- Modelled from the spec: `create(field) -> sessionId` of section 4.1
(backend `main.py` absent).  Fails with `InvalidFieldError` on an
unrecognized field.  The backend generates a unique identifier; here the
identifier is an argument and a collision with an existing one is refused,
which models the uniqueness guarantee. -/
def createSession (st : Store) (sid fld : String) : Except ApiError Store :=
  if fld ∈ validFields then
    match lookupS st sid with
    | some _ => .error .invalidState
    | none => .ok (setS st sid (newSession fld))
  else .error .invalidField

/-- Modelled from the spec: `get(sessionId) -> Session` of section 4.1
(backend `main.py` absent).  Fails with `NotFoundError` if absent. -/
def getSession (st : Store) (sid : String) : Except ApiError Session :=
  match lookupS st sid with
  | none => .error .notFound
  | some s => .ok s

/-- Modelled from the spec: the partial fields accepted by `update`
(section 4.1): the client-mutable fields of the session.  Status and result
payload are written only by the orchestrator (section 3). -/
structure SessionPatch where
  field : Option String
  answers : Option (List (String × AnswerValue))
  documents : Option (List DocRef)
deriving DecidableEq, Repr

/-- Merge the present fields of a patch over a session (spec section 4.1:
"merges fields"). -/
def mergeSession (s : Session) (p : SessionPatch) : Session :=
  { s with
    field := p.field.getD s.field
    answers := p.answers.getD s.answers
    documents := p.documents.getD s.documents }

/-- Modelled from the spec: `update(sessionId, partialFields)` of section 4.1
(backend `main.py` absent).  Fails with `NotFoundError` if absent, with
`InvalidStateError` on a session already in terminal status. -/
def updateSession (st : Store) (sid : String) (p : SessionPatch) :
    Except ApiError Store :=
  match lookupS st sid with
  | none => .error .notFound
  | some s =>
    if s.status.isTerminal then .error .invalidState
    else .ok (setS st sid (mergeSession s p))

/-- Modelled from the spec: `delete(sessionId)` of section 4.1 (backend
`main.py` absent): removes the session; idempotent, a call on an absent
identifier no-ops rather than erroring, so the operation never fails. -/
def deleteSession (st : Store) (sid : String) : Except ApiError Store :=
  .ok (removeS st sid)

/-- The accepted upload extensions {pdf, docx} (spec section 4.2; matching
the `accept=".pdf,.docx"` file-input filter of `DocumentUpload.tsx`). -/
def allowedExtensions : List String := ["pdf", "docx"]

/-- Characters of the final separator-delimited segment of a character list
(the whole list when the separator does not occur). -/
def lastSegment (sep : Char) : List Char → List Char → List Char
  | [], cur => cur
  | c :: cs, cur =>
    if c = sep then lastSegment sep cs []
    else lastSegment sep cs (cur ++ [c])

/-- Extension of a filename: the fragment after the last dot. -/
def extOf (filename : String) : String :=
  String.mk (lastSegment '.' filename.data [])

/-- Configured maximum number of stored documents per session (spec
section 4.2 names a configured cap without recording its value; taken
as 10). -/
def maxTotalFiles : Nat := 10

/-- Document reference for a stored file, written under a per-session
namespace derived from the session identifier (spec section 4.2). -/
def toDocRef (sid : String) (f : UploadFile) : DocRef :=
  { path := sid ++ "/" ++ f.filename,
    original_filename := f.filename,
    content_type := extOf f.filename }

/-- Modelled from the spec: `store(sessionId, files)` of the Upload Handler
(section 4.2; backend `main.py` absent).  Rejects with `UnsupportedTypeError`
any file whose extension is not in {pdf, docx}, with `InvalidStateError` a
terminal session (section 3 invariant: terminal sessions admit no mutation
but deletion), and with `TooManyFilesError` past the configured cap;
otherwise appends the new document references to the session. -/
def uploadDocuments (st : Store) (sid : String) (files : List UploadFile) :
    Except ApiError Store :=
  match lookupS st sid with
  | none => .error .notFound
  | some s =>
    if ∀ f ∈ files, extOf f.filename ∈ allowedExtensions then
      if s.status.isTerminal then .error .invalidState
      else if s.documents.length + files.length > maxTotalFiles then
        .error .tooManyFiles
      else .ok (setS st sid
        { s with documents := s.documents ++ files.map (toDocRef sid) })
    else .error .unsupportedType

/-- Modelled from the spec: the `pending → processing` transition of the
Analysis Orchestrator (section 4.3; backend `main.py` absent).  Fails with
`InvalidStateError` if the session is not in `pending` or has no
questionnaire answers / no uploaded documents. -/
def analyzeSession (st : Store) (sid : String) : Except ApiError Store :=
  match lookupS st sid with
  | none => .error .notFound
  | some s =>
    if s.status = .pending ∧ s.answers ≠ [] ∧ s.documents ≠ [] then
      .ok (setS st sid { s with status := .processing })
    else .error .invalidState

/-- Modelled from the spec: a raw roadmap milestone as returned by the LLM
Service, every schema field possibly missing (section 4.3 step 3: "malformed
/ missing fields"). -/
structure RawMilestone where
  title : Option String
  description : Option String
  duration_weeks : Option Nat
  priority : Option String
  evidence_to_collect : Option (List String)
  addresses_gaps : Option (List String)
deriving DecidableEq, Repr

/-- Modelled from the spec: a raw LLM reply against the fixed output schema of
section 4.3 step 2, with every field possibly missing. -/
structure RawReply where
  likelihood : Option ℚ
  assessment_level : Option String
  gaps : Option (List Gap)
  strengths : Option (List String)
  overall_assessment : Option String
  milestones : Option (List RawMilestone)
  feasibility_assessment : Option String
deriving DecidableEq, Repr

/-- Parse one raw milestone; `none` when any schema field is missing. -/
def parseMilestone (m : RawMilestone) : Option Milestone :=
  match m.title, m.description, m.duration_weeks, m.priority,
        m.evidence_to_collect, m.addresses_gaps with
  | some t, some d, some w, some p, some e, some a =>
    some { title := t, description := d, duration_weeks := w, priority := p,
           evidence_to_collect := e, addresses_gaps := a }
  | _, _, _, _, _, _ => none

/-- Parse a raw milestone list; `none` when any entry is malformed. -/
def parseMilestones : List RawMilestone → Option (List Milestone)
  | [] => some []
  | m :: ms =>
    match parseMilestone m, parseMilestones ms with
    | some x, some xs => some (x :: xs)
    | _, _ => none

/-- Modelled from the spec: schema validation of the LLM reply (section 4.3
step 3 and the section 9 strategy "validate the reply against a strict schema
immediately after receipt").  Requires every field of the fixed output schema
and a likelihood score in [0,1] (section 4.3 step 2); yields the analysis
block, the milestones, and the feasibility assessment. -/
def parseReply (r : RawReply) : Option (Analysis × List Milestone × String) :=
  match r.likelihood, r.assessment_level, r.gaps, r.strengths,
        r.overall_assessment, r.milestones, r.feasibility_assessment with
  | some lik, some lvl, some gs, some strs, some oa, some rms, some fa =>
    if 0 ≤ lik ∧ lik ≤ 1 then
      match parseMilestones rms with
      | some ms =>
        some ({ likelihood := lik, assessment_level := lvl, gaps := gs,
                strengths := strs, overall_assessment := oa }, ms, fa)
      | none => none
    else none
  | _, _, _, _, _, _, _ => none

/-- Modelled from the spec: the background unit of work of the Analysis
Orchestrator (section 4.3; backend `main.py` absent).  Runs only against a
`processing` session (the `pending`-only trigger guard of section 5
guarantees at most one in-flight analysis, and section 3 makes terminal
statuses final, so the status write is guarded).  On parse success it
computes the derived total roadmap duration as the sum of milestone
durations and transitions to `completed` storing the payload; on parse
failure it transitions to `error` with a captured diagnostic message. -/
def finishAnalysis (st : Store) (sid : String) (reply : RawReply) : Store :=
  match lookupS st sid with
  | none => st
  | some s =>
    if s.status = .processing then
      match parseReply reply with
      | some (a, ms, fa) =>
        setS st sid
          { s with
            status := .completed,
            results := some
              { field := s.field, analysis := a,
                roadmap := { milestones := ms,
                             total_weeks := sumDurations ms,
                             feasibility_assessment := fa } },
            errorMessage := none }
      | none =>
        setS st sid
          { s with
            status := .error,
            errorMessage := some "Failed to parse LLM response" }
    else st

/-- Response of `GET /results/{id}`, the shape of `AnalysisResult` in
`frontend/src/lib/api.ts`: session id, current status, optional payload. -/
structure ResultsResponse where
  session_id : String
  status : Status
  results : Option ResultsPayload
deriving DecidableEq, Repr

/-- Modelled from the spec: the polling read `GET /results/{id}` (sections 4.3
and 6; backend `main.py` absent).  A pure function of the store — the read
has no side effect — returning current status plus the result payload
exactly when status is `completed`. -/
def getSessionResults (st : Store) (sid : String) :
    Except ApiError ResultsResponse :=
  match lookupS st sid with
  | none => .error .notFound
  | some s =>
    .ok { session_id := sid, status := s.status,
          results := if s.status = .completed then s.results else none }

/-- The operations that mutate the Session Store: the session CRUD and upload
calls of sections 4.1-4.2, the analysis trigger, and the background unit of
work of section 4.3. -/
inductive Op where
  | create (sid fld : String)
  | update (sid : String) (p : SessionPatch)
  | upload (sid : String) (files : List UploadFile)
  | analyze (sid : String)
  | finish (sid : String) (reply : RawReply)
  | delete (sid : String)
deriving DecidableEq, Repr

/-- Apply one operation, returning its error when it fails. -/
def applyOpE (st : Store) : Op → Except ApiError Store
  | .create sid fld => createSession st sid fld
  | .update sid p => updateSession st sid p
  | .upload sid files => uploadDocuments st sid files
  | .analyze sid => analyzeSession st sid
  | .finish sid reply => .ok (finishAnalysis st sid reply)
  | .delete sid => deleteSession st sid

/-- Apply one operation; a failing operation leaves the store unchanged
(spec section 7: validation errors surface synchronously, with no state
change). -/
def applyOp (st : Store) (op : Op) : Store :=
  match applyOpE st op with
  | .ok st' => st'
  | .error _ => st

/-- Stores reachable from the empty store by the session operations. -/
inductive Reachable : Store → Prop where
  | init : Reachable []
  | step : ∀ {st : Store} (op : Op), Reachable st → Reachable (applyOp st op)

/-- Well-formedness of one session: the result payload is present exactly in
`completed` status (spec section 3), and any stored payload carries a
likelihood in [0,1] and a roadmap total equal to the sum of its milestone
durations (spec section 4.3). -/
def SessionWF (s : Session) : Prop :=
  (s.status = .completed ↔ s.results.isSome) ∧
  ∀ r, s.results = some r →
    0 ≤ r.analysis.likelihood ∧ r.analysis.likelihood ≤ 1 ∧
    r.roadmap.total_weeks = sumDurations r.roadmap.milestones

/-- Well-formedness of a store: every stored session is well-formed. -/
def StoreWF (st : Store) : Prop :=
  ∀ sid s, lookupS st sid = some s → SessionWF s

/-- State of the `AnalysisResults` component (`AnalysisResults.tsx`): the
`results`, `loading`, `error`, and `progress` React state hooks.  The
`loadingStep` hook drives only the step captions and is not modelled. -/
structure ClientState where
  results : Option ResultsResponse
  loading : Bool
  error : String
  progress : Nat
deriving DecidableEq, Repr

/-- Initial hook values of `AnalysisResults`: `useState(null)`,
`useState(true)`, `useState('')`, `useState(0)`. -/
def initialClientState : ClientState :=
  { results := none, loading := true, error := "", progress := 0 }

/-- One tick of the simulated-progress interval in `AnalysisResults.tsx`:
`prev >= 95 ? prev : prev + 1`. -/
def tickProgress (p : Nat) : Nat :=
  if p ≥ 95 then p else p + 1

/-- One iteration of `checkResults` in `AnalysisResults.tsx` applied to the
fetched response: on `completed` with a payload it sets progress to 100,
stores the response and leaves the loading state (after the cosmetic 500ms
delay); on `error` it records the failure message and leaves the loading
state; otherwise it schedules another poll.  The boolean is whether another
poll is scheduled. -/
def pollStep (st : ClientState) (data : ResultsResponse) :
    ClientState × Bool :=
  if data.status = .completed ∧ data.results.isSome then
    ({ st with
       progress := 100,
       results := some data,
       loading := false }, false)
  else if data.status = .error then
    ({ st with
       error := "Analysis failed. Please try again.",
       loading := false }, false)
  else (st, true)

/-- Run `checkResults` over a list of successive poll responses, stopping as
soon as an iteration does not schedule another poll. -/
def pollTrace (st : ClientState) : List ResultsResponse → ClientState
  | [] => st
  | d :: ds =>
    let r := pollStep st d
    if r.2 then pollTrace r.1 ds else r.1

/-- What the `AnalysisResults` component renders: the loading card with the
progress bar, the failure card (generic message plus the Start New Analysis
restart button), or the results view of a payload. -/
inductive ClientView where
  | loadingView (progress : Nat)
  | failureView (message : String)
  | resultsView (payload : ResultsPayload)
deriving DecidableEq, Repr

/-- The render branches of `AnalysisResults.tsx`: `if (loading)` the loading
card; `if (error || !results?.results)` the failure card with the restart
button; otherwise the results view of `results.results`. -/
def renderClient (st : ClientState) : ClientView :=
  if st.loading then .loadingView st.progress
  else if st.error ≠ "" then .failureView st.error
  else
    match st.results with
    | some resp =>
      match resp.results with
      | some payload => .resultsView payload
      | none => .failureView st.error
    | none => .failureView st.error

/-- Wizard steps of the `Home` page (`type Step` in the wizard page source,
the variant with a landing step and progress-bar navigation). -/
inductive Step where
  | landing
  | field
  | questionnaire
  | upload
  | results
deriving DecidableEq, Repr

/-- The `steps` array of `handleStepClick`:
`['field', 'questionnaire', 'upload', 'results']`. -/
def wizardSteps : List Step :=
  [.field, .questionnaire, .upload, .results]

/-- `steps.indexOf(currentStep)`; `-1` for the landing step, which is not in
the array (JavaScript `indexOf` semantics). -/
def wizardIndex : Step → Int
  | .landing => -1
  | .field => 0
  | .questionnaire => 1
  | .upload => 2
  | .results => 3

/-- The wizard state of the `Home` page: the `currentStep`, `field`,
`sessionId` and `questionnaireResponses` hooks. -/
structure WizardState where
  currentStep : Step
  field : String
  sessionId : String
  questionnaireResponses : List (String × AnswerValue)
deriving DecidableEq, Repr

/-- `handleStepClick(stepIndex)` of the `Home` page: no-op on the landing
page; a click below the current index goes back to that step; a click on
the current index does nothing; forward clicks move to the questionnaire
only with a field and session id set (`field && sessionId`: non-empty
strings), to the upload step only with non-empty questionnaire responses
(`Object.keys(...).length > 0`), and to the results step never.  Callers
pass indices 0-3, so the back-navigation array read is in range; its
`getD` default is never used. -/
def handleStepClick (st : WizardState) (stepIndex : Nat) : Step :=
  if st.currentStep = .landing then st.currentStep
  else if (stepIndex : Int) < wizardIndex st.currentStep then
    wizardSteps.getD stepIndex st.currentStep
  else if (stepIndex : Int) = wizardIndex st.currentStep then st.currentStep
  else if stepIndex = 1 ∧ st.field ≠ "" ∧ st.sessionId ≠ "" then
    .questionnaire
  else if stepIndex = 2 ∧ st.questionnaireResponses ≠ [] then .upload
  else st.currentStep

/-- A concrete run of the section 8 scenario: create a `digital_technology`
session, submit questionnaire answers, upload one PDF, trigger analysis. -/
def demoReply : RawReply :=
  { likelihood := some 1, assessment_level := some "Exceptional Talent",
    gaps := some [], strengths := some ["Strong CV"],
    overall_assessment := some "Strong profile",
    milestones := some
      [{ title := some "Publish", description := some "Write a paper",
         duration_weeks := some 12, priority := some "high",
         evidence_to_collect := some ["paper"], addresses_gaps := some [] }],
    feasibility_assessment := some "Feasible" }

def demoStore1 : Store :=
  applyOp [] (.create "s1" "digital_technology")

def demoStore2 : Store :=
  applyOp demoStore1 (.update "s1"
    { field := none,
      answers := some
        [("years_experience", .num 7), ("has_founded_company", .bool true)],
      documents := none })

def demoStore3 : Store :=
  applyOp demoStore2 (.upload "s1" [{ filename := "cv.pdf" }])

def demoStore4 : Store :=
  applyOp demoStore3 (.analyze "s1")

def demoStore5 : Store :=
  applyOp demoStore4 (.finish "s1" demoReply)

def fallbackSession : Session := newSession ""

def fallbackPayload : ResultsPayload :=
  { field := "",
    analysis := { likelihood := 0, assessment_level := "", gaps := [],
                  strengths := [], overall_assessment := "" },
    roadmap := { milestones := [], total_weeks := 0,
                 feasibility_assessment := "" } }

def fallbackResponse : ResultsResponse :=
  { session_id := "", status := .pending, results := none }

def demoSession1 : Session := (lookupS demoStore1 "s1").getD fallbackSession

def demoSession3 : Session := (lookupS demoStore3 "s1").getD fallbackSession

def demoSession4 : Session := (lookupS demoStore4 "s1").getD fallbackSession

def demoSession5 : Session := (lookupS demoStore5 "s1").getD fallbackSession

def demoPayload5 : ResultsPayload := demoSession5.results.getD fallbackPayload

def demoResponse5 : ResultsResponse :=
  (getSessionResults demoStore5 "s1").toOption.getD fallbackResponse

/-- The milestones of `demoReply` as parsed values. -/
def demoMilestones : List Milestone :=
  [{ title := "Publish", description := "Write a paper", duration_weeks := 12,
     priority := "high", evidence_to_collect := ["paper"],
     addresses_gaps := [] }]

/-- The analysis block of `demoReply` as a parsed value. -/
def demoAnalysis : Analysis :=
  { likelihood := 1, assessment_level := "Exceptional Talent", gaps := [],
    strengths := ["Strong CV"], overall_assessment := "Strong profile" }

def demoPatch : SessionPatch :=
  { field := none, answers := none, documents := none }

/-- Poll responses used to exercise the frontend polling model. -/
def demoProcessingResp : ResultsResponse :=
  { session_id := "s1", status := .processing, results := none }

def demoErrorResp : ResultsResponse :=
  { session_id := "s1", status := .error, results := none }

def demoCompletedResp : ResultsResponse :=
  { session_id := "s1", status := .completed, results := some fallbackPayload }

/-- A wizard state sitting on the upload step with earlier data present. -/
def demoWizard : WizardState :=
  { currentStep := .upload, field := "digital_technology", sessionId := "s1",
    questionnaireResponses := [("years_experience", .num 7)] }

theorem lookupS_setS_self (st : Store) (sid : String) (s : Session) :
    lookupS (setS st sid s) sid = some s := by
  induction st with
  | nil => simp [setS, lookupS]
  | cons kv rest ih =>
    obtain ⟨k, v⟩ := kv
    by_cases h : k = sid
    · simp [setS, h, lookupS]
    · simp [setS, h, lookupS, ih]

theorem lookupS_setS_ne (st : Store) (sid sid' : String) (s : Session)
    (h : sid' ≠ sid) :
    lookupS (setS st sid s) sid' = lookupS st sid' := by
  induction st with
  | nil => simp [setS, lookupS, Ne.symm h]
  | cons kv rest ih =>
    obtain ⟨k, v⟩ := kv
    by_cases hk : k = sid
    · subst hk
      simp [setS, lookupS, Ne.symm h]
    · simp [setS, hk, lookupS, ih]

theorem lookupS_removeS_self (st : Store) (sid : String) :
    lookupS (removeS st sid) sid = none := by
  induction st with
  | nil => simp [removeS, lookupS]
  | cons kv rest ih =>
    obtain ⟨k, v⟩ := kv
    by_cases h : k = sid
    · simp [removeS, h, ih]
    · simp [removeS, h, lookupS, ih]

theorem lookupS_removeS_ne (st : Store) (sid sid' : String) (h : sid' ≠ sid) :
    lookupS (removeS st sid) sid' = lookupS st sid' := by
  induction st with
  | nil => simp [removeS, lookupS]
  | cons kv rest ih =>
    obtain ⟨k, v⟩ := kv
    by_cases hk : k = sid
    · subst hk
      simp [removeS, lookupS, Ne.symm h, ih]
    · simp [removeS, hk, lookupS, ih]

theorem removeS_removeS (st : Store) (sid : String) :
    removeS (removeS st sid) sid = removeS st sid := by
  induction st with
  | nil => simp [removeS]
  | cons kv rest ih =>
    obtain ⟨k, v⟩ := kv
    by_cases h : k = sid
    · simp [removeS, h, ih]
    · simp [removeS, h, ih]

/-- Claim C1: for every session whose background analysis unit of work
succeeds, the session's status is exactly `completed` and the stored result
payload's roadmap `total_weeks` equals the sum of the `duration_weeks` of the
milestones in that roadmap. -/
theorem analysis_success_completes_with_total_weeks_sum
    (st : Store) (sid : String) (s : Session) (reply : RawReply)
    (a : Analysis) (ms : List Milestone) (fa : String)
    (hs : lookupS st sid = some s) (hproc : s.status = .processing)
    (hparse : parseReply reply = some (a, ms, fa)) :
    ∃ s' r, lookupS (finishAnalysis st sid reply) sid = some s' ∧
      s'.status = .completed ∧ s'.results = some r ∧
      r.roadmap.total_weeks = sumDurations r.roadmap.milestones := by
  unfold finishAnalysis
  rw [hs]
  simp only [hproc, if_pos rfl, hparse]
  exact ⟨_, _, lookupS_setS_self st sid _, rfl, rfl, rfl⟩

/-- Claim C3: calling `analyze` on a session that is not `pending`, or is
`pending` without questionnaire answers, or has no uploaded documents, fails
with `InvalidStateError` and leaves the store completely unchanged. -/
theorem analyze_invalid_precondition_noop
    (st : Store) (sid : String) (s : Session)
    (hs : lookupS st sid = some s)
    (hbad : s.status ≠ .pending ∨ s.answers = [] ∨ s.documents = []) :
    analyzeSession st sid = .error .invalidState ∧
      applyOp st (.analyze sid) = st := by
  have hcond : ¬(s.status = .pending ∧ s.answers ≠ [] ∧ s.documents ≠ []) := by
    tauto
  have herr : analyzeSession st sid = .error .invalidState := by
    unfold analyzeSession
    rw [hs]
    simp only [if_neg hcond]
  exact ⟨herr, by simp [applyOp, applyOpE, herr]⟩

/-- Claim C6: an upload request containing a file whose extension is not in
{pdf, docx} is rejected with `UnsupportedTypeError`, and the session's
document-reference list (the whole session) is left unchanged. -/
theorem unsupported_extension_upload_rejected
    (st : Store) (sid : String) (s : Session) (files : List UploadFile)
    (hs : lookupS st sid = some s)
    (hbad : ∃ f ∈ files, extOf f.filename ∉ allowedExtensions) :
    uploadDocuments st sid files = .error .unsupportedType ∧
      lookupS (applyOp st (.upload sid files)) sid = some s := by
  have hnot : ¬ ∀ f ∈ files, extOf f.filename ∈ allowedExtensions := by
    obtain ⟨f, hf, hb⟩ := hbad
    intro hall
    exact hb (hall f hf)
  have herr : uploadDocuments st sid files = .error .unsupportedType := by
    unfold uploadDocuments
    rw [hs]
    simp only [if_neg hnot]
  refine ⟨herr, ?_⟩
  simp [applyOp, applyOpE, herr, hs]

theorem applyOp_of_error (st : Store) (op : Op) (e : ApiError)
    (h : applyOpE st op = .error e) : applyOp st op = st := by
  unfold applyOp
  rw [h]

theorem applyOp_of_ok (st : Store) (op : Op) (st' : Store)
    (h : applyOpE st op = .ok st') : applyOp st op = st' := by
  unfold applyOp
  rw [h]

theorem parseReply_bounds (r : RawReply) (a : Analysis) (ms : List Milestone)
    (fa : String) (h : parseReply r = some (a, ms, fa)) :
    0 ≤ a.likelihood ∧ a.likelihood ≤ 1 := by
  unfold parseReply at h
  split at h
  · rename_i lik lvl gs strs oa rms fa2 hl ha hg hstr ho hm hf
    split at h
    · rename_i hcond
      split at h
      · simp only [Option.some.injEq, Prod.mk.injEq] at h
        obtain ⟨h1, _, _⟩ := h
        subst h1
        exact ⟨hcond.1, hcond.2⟩
      · simp at h
    · simp at h
  · simp at h

theorem sessionWF_results_none (s : Session) (hw : SessionWF s)
    (h : s.status ≠ .completed) : s.results = none := by
  cases hr : s.results with
  | none => rfl
  | some r => exact absurd (hw.1.mpr (by simp [hr])) h

theorem sessionWF_newSession (fld : String) : SessionWF (newSession fld) := by
  constructor
  · simp [newSession]
  · intro r hr
    simp [newSession] at hr

theorem storeWF_setS (st : Store) (sid : String) (s : Session)
    (hst : StoreWF st) (hs : SessionWF s) : StoreWF (setS st sid s) := by
  intro sid' s' h
  by_cases he : sid' = sid
  · subst he
    rw [lookupS_setS_self] at h
    simp only [Option.some.injEq] at h
    subst h
    exact hs
  · rw [lookupS_setS_ne st sid sid' s he] at h
    exact hst sid' s' h

theorem storeWF_removeS (st : Store) (sid : String) (hst : StoreWF st) :
    StoreWF (removeS st sid) := by
  intro sid' s' h
  by_cases he : sid' = sid
  · subst he
    rw [lookupS_removeS_self] at h
    cases h
  · rw [lookupS_removeS_ne st sid sid' he] at h
    exact hst sid' s' h

theorem storeWF_createSession (st st' : Store) (sid fld : String)
    (hst : StoreWF st) (h : createSession st sid fld = .ok st') :
    StoreWF st' := by
  unfold createSession at h
  split at h
  · split at h
    · cases h
    · cases h
      exact storeWF_setS st sid _ hst (sessionWF_newSession fld)
  · cases h

theorem storeWF_updateSession (st st' : Store) (sid : String)
    (p : SessionPatch) (hst : StoreWF st)
    (h : updateSession st sid p = .ok st') : StoreWF st' := by
  unfold updateSession at h
  split at h
  · cases h
  · rename_i s hs
    split at h
    · cases h
    · cases h
      refine storeWF_setS st sid _ hst ?_
      have hw := hst sid s hs
      exact ⟨hw.1, hw.2⟩

theorem storeWF_uploadDocuments (st st' : Store) (sid : String)
    (files : List UploadFile) (hst : StoreWF st)
    (h : uploadDocuments st sid files = .ok st') : StoreWF st' := by
  unfold uploadDocuments at h
  split at h
  · cases h
  · rename_i s hs
    split at h
    · split at h
      · cases h
      · split at h
        · cases h
        · cases h
          refine storeWF_setS st sid _ hst ?_
          have hw := hst sid s hs
          exact ⟨hw.1, hw.2⟩
    · cases h

theorem storeWF_analyzeSession (st st' : Store) (sid : String)
    (hst : StoreWF st) (h : analyzeSession st sid = .ok st') : StoreWF st' := by
  unfold analyzeSession at h
  split at h
  · cases h
  · rename_i s hs
    split at h
    · rename_i hcond
      cases h
      refine storeWF_setS st sid _ hst ?_
      have hw := hst sid s hs
      have hres : s.results = none :=
        sessionWF_results_none s hw (by rw [hcond.1]; intro hc; cases hc)
      constructor
      · simp [hres]
      · intro r hr
        simp [hres] at hr
    · cases h

theorem storeWF_finishAnalysis (st : Store) (sid : String) (reply : RawReply)
    (hst : StoreWF st) : StoreWF (finishAnalysis st sid reply) := by
  unfold finishAnalysis
  split
  · exact hst
  · rename_i s hs
    split
    · rename_i hproc
      split
      · rename_i res a ms fa hparse
        refine storeWF_setS st sid _ hst ?_
        have hb := parseReply_bounds reply a ms fa hparse
        constructor
        · simp
        · intro r hr
          simp only [Option.some.injEq] at hr
          subst hr
          exact ⟨hb.1, hb.2, rfl⟩
      · refine storeWF_setS st sid _ hst ?_
        have hw := hst sid s hs
        have hres : s.results = none :=
          sessionWF_results_none s hw (by rw [hproc]; intro hc; cases hc)
        constructor
        · simp [hres]
        · intro r hr
          simp [hres] at hr
    · exact hst

theorem storeWF_applyOp (st : Store) (op : Op) (hst : StoreWF st) :
    StoreWF (applyOp st op) := by
  cases op with
  | create sid fld =>
    cases hE : applyOpE st (Op.create sid fld) with
    | error e => rw [applyOp_of_error st _ e hE]; exact hst
    | ok st' =>
      rw [applyOp_of_ok st _ st' hE]
      exact storeWF_createSession st st' sid fld hst hE
  | update sid p =>
    cases hE : applyOpE st (Op.update sid p) with
    | error e => rw [applyOp_of_error st _ e hE]; exact hst
    | ok st' =>
      rw [applyOp_of_ok st _ st' hE]
      exact storeWF_updateSession st st' sid p hst hE
  | upload sid files =>
    cases hE : applyOpE st (Op.upload sid files) with
    | error e => rw [applyOp_of_error st _ e hE]; exact hst
    | ok st' =>
      rw [applyOp_of_ok st _ st' hE]
      exact storeWF_uploadDocuments st st' sid files hst hE
  | analyze sid =>
    cases hE : applyOpE st (Op.analyze sid) with
    | error e => rw [applyOp_of_error st _ e hE]; exact hst
    | ok st' =>
      rw [applyOp_of_ok st _ st' hE]
      exact storeWF_analyzeSession st st' sid hst hE
  | finish sid reply =>
    rw [applyOp_of_ok st (Op.finish sid reply) (finishAnalysis st sid reply)
      rfl]
    exact storeWF_finishAnalysis st sid reply hst
  | delete sid =>
    rw [applyOp_of_ok st (Op.delete sid) (removeS st sid) rfl]
    exact storeWF_removeS st sid hst

theorem storeWF_of_reachable (st : Store) (h : Reachable st) : StoreWF st := by
  induction h with
  | init =>
    intro sid s hl
    cases hl
  | step op _ ih => exact storeWF_applyOp _ op ih

/-- Claim C7: `delete` never raises (in particular not on a non-existent or
already-deleted session), is idempotent, and after deletion a `get` on the
same sessionId fails with `NotFoundError`. -/
theorem delete_idempotent_get_not_found (st : Store) (sid : String) :
    deleteSession st sid = .ok (removeS st sid) ∧
    getSession (removeS st sid) sid = .error .notFound ∧
    removeS (removeS st sid) sid = removeS st sid := by
  refine ⟨rfl, ?_, removeS_removeS st sid⟩
  simp [getSession, lookupS_removeS_self]

/-- Claim C2: once a session is in terminal status (`completed` or `error`),
`update` fails with `InvalidStateError` leaving it unchanged, and no
operation other than deleting that very session changes the stored
session. -/
theorem terminal_status_blocks_mutation
    (st : Store) (sid : String) (s : Session)
    (hs : lookupS st sid = some s) (hterm : s.status.isTerminal = true) :
    (∀ p, updateSession st sid p = .error .invalidState) ∧
    (∀ op : Op, op ≠ .delete sid → lookupS (applyOp st op) sid = some s) := by
  constructor
  · intro p
    unfold updateSession
    rw [hs]
    simp [hterm]
  · intro op hop
    cases op with
    | create sid' fld =>
      cases hE : applyOpE st (Op.create sid' fld) with
      | error e => rw [applyOp_of_error st _ e hE]; exact hs
      | ok st' =>
        rw [applyOp_of_ok st _ st' hE]
        simp only [applyOpE] at hE
        unfold createSession at hE
        split at hE
        · split at hE
          · cases hE
          · rename_i hnone
            cases hE
            have hne : sid ≠ sid' := by
              intro he
              rw [he, hnone] at hs
              cases hs
            rw [lookupS_setS_ne st sid' sid _ hne]
            exact hs
        · cases hE
    | update sid' p =>
      cases hE : applyOpE st (Op.update sid' p) with
      | error e => rw [applyOp_of_error st _ e hE]; exact hs
      | ok st' =>
        rw [applyOp_of_ok st _ st' hE]
        simp only [applyOpE] at hE
        unfold updateSession at hE
        split at hE
        · cases hE
        · rename_i s2 hs2
          split at hE
          · cases hE
          · rename_i hnt
            cases hE
            have hne : sid ≠ sid' := by
              intro he
              rw [he, hs2] at hs
              simp only [Option.some.injEq] at hs
              rw [← hs] at hterm
              exact hnt hterm
            rw [lookupS_setS_ne st sid' sid _ hne]
            exact hs
    | upload sid' files =>
      cases hE : applyOpE st (Op.upload sid' files) with
      | error e => rw [applyOp_of_error st _ e hE]; exact hs
      | ok st' =>
        rw [applyOp_of_ok st _ st' hE]
        simp only [applyOpE] at hE
        unfold uploadDocuments at hE
        split at hE
        · cases hE
        · rename_i s2 hs2
          split at hE
          · split at hE
            · cases hE
            · split at hE
              · cases hE
              · rename_i hnt hcap
                cases hE
                have hne : sid ≠ sid' := by
                  intro he
                  rw [he, hs2] at hs
                  simp only [Option.some.injEq] at hs
                  rw [← hs] at hterm
                  exact hnt hterm
                rw [lookupS_setS_ne st sid' sid _ hne]
                exact hs
          · cases hE
    | analyze sid' =>
      cases hE : applyOpE st (Op.analyze sid') with
      | error e => rw [applyOp_of_error st _ e hE]; exact hs
      | ok st' =>
        rw [applyOp_of_ok st _ st' hE]
        simp only [applyOpE] at hE
        unfold analyzeSession at hE
        split at hE
        · cases hE
        · rename_i s2 hs2
          split at hE
          · rename_i hcond
            cases hE
            have hne : sid ≠ sid' := by
              intro he
              rw [he, hs2] at hs
              simp only [Option.some.injEq] at hs
              rw [← hs, hcond.1] at hterm
              simp [Status.isTerminal] at hterm
            rw [lookupS_setS_ne st sid' sid _ hne]
            exact hs
          · cases hE
    | finish sid' reply =>
      rw [applyOp_of_ok st (Op.finish sid' reply)
        (finishAnalysis st sid' reply) rfl]
      unfold finishAnalysis
      split
      · exact hs
      · rename_i s2 hs2
        split
        · rename_i hproc
          have hne : sid ≠ sid' := by
            intro he
            rw [he, hs2] at hs
            simp only [Option.some.injEq] at hs
            rw [← hs, hproc] at hterm
            simp [Status.isTerminal] at hterm
          split
          · rw [lookupS_setS_ne st sid' sid _ hne]
            exact hs
          · rw [lookupS_setS_ne st sid' sid _ hne]
            exact hs
        · exact hs
    | delete sid' =>
      rw [applyOp_of_ok st (Op.delete sid') (removeS st sid') rfl]
      have hne : sid ≠ sid' := by
        intro he
        exact hop (by rw [he])
      rw [lookupS_removeS_ne st sid' sid hne]
      exact hs

/-- Claim C4: the results read is a pure (side-effect-free) function of the
store, and on any reachable store its response carries the result payload if
and only if the session's status is `completed` — so for `pending`,
`processing` and `error` the payload is absent. -/
theorem results_read_payload_iff_completed
    (st : Store) (sid : String) (s : Session) (resp : ResultsResponse)
    (hr : Reachable st) (hs : lookupS st sid = some s)
    (hresp : getSessionResults st sid = .ok resp) :
    (resp.results.isSome = true ↔ s.status = .completed) := by
  have hw := storeWF_of_reachable st hr sid s hs
  unfold getSessionResults at hresp
  rw [hs] at hresp
  simp only [Except.ok.injEq] at hresp
  subst hresp
  by_cases hc : s.status = .completed
  · simp [hc, hw.1.mp hc]
  · simp [hc]

/-- Claim C8: on any reachable store, a `completed` analysis carries a result
payload whose likelihood score lies in the closed interval [0,1]. -/
theorem completed_likelihood_within_unit_interval
    (st : Store) (sid : String) (s : Session)
    (hr : Reachable st) (hs : lookupS st sid = some s)
    (hc : s.status = .completed) :
    ∃ r, s.results = some r ∧
      0 ≤ r.analysis.likelihood ∧ r.analysis.likelihood ≤ 1 := by
  have hw := storeWF_of_reachable st hr sid s hs
  have hsome := hw.1.mp hc
  cases hres : s.results with
  | none =>
    rw [hres] at hsome
    simp at hsome
  | some r =>
    have hb := hw.2 r hres
    exact ⟨r, rfl, hb.1, hb.2.1⟩

/-- Claim C5: when a polled status read returns `error`, `checkResults`
schedules no further poll and the component renders the failure card — the
generic "Analysis failed. Please try again." message shown with the
Start New Analysis restart button; and over any run of polls none of which
returns `completed` with a payload, the component never renders any result
payload. -/
theorem error_status_stops_polling_and_shows_failure :
    (∀ (st : ClientState) (d : ResultsResponse), d.status = .error →
      (pollStep st d).2 = false ∧
      renderClient (pollStep st d).1 =
        .failureView "Analysis failed. Please try again.") ∧
    (∀ (ds : List ResultsResponse) (st : ClientState), st.results = none →
      (∀ d ∈ ds, ¬(d.status = .completed ∧ d.results.isSome = true)) →
      ∀ payload, renderClient (pollTrace st ds) ≠ .resultsView payload) := by
  constructor
  · intro st d hd
    have hnc : ¬(d.status = .completed ∧ d.results.isSome = true) := by
      rw [hd]
      rintro ⟨hc, _⟩
      cases hc
    constructor
    · simp [pollStep, hnc, hd]
    · simp [pollStep, hnc, hd, renderClient]
  · intro ds
    induction ds with
    | nil =>
      intro st hres _ payload
      by_cases hl : st.loading = true
      · simp [pollTrace, renderClient, hl]
      · by_cases herr : st.error = ""
        · simp [pollTrace, renderClient, hl, herr, hres]
        · simp [pollTrace, renderClient, hl, herr]
    | cons d ds ih =>
      intro st hres hall payload
      have hnc := hall d (by simp)
      by_cases h2 : d.status = .error
      · simp [pollTrace, pollStep, hnc, h2, renderClient]
      · have hstep : pollStep st d = (st, true) := by
          simp [pollStep, hnc, h2]
        simp only [pollTrace, hstep]
        exact ih st hres (fun d' hd' => hall d' (by simp [hd'])) payload

/-- Claim C9: the simulated-progress ticks of the loading view never push the
value past 95 (from any start at most 95 and any number of ticks), and
`checkResults` changes the progress only on a `completed` read carrying a
payload, setting it then to exactly 100. -/
theorem progress_capped_at_95_until_completion :
    (∀ (n p : Nat), p ≤ 95 → Nat.iterate tickProgress n p ≤ 95) ∧
    (∀ (st : ClientState) (d : ResultsResponse),
      ¬(d.status = .completed ∧ d.results.isSome = true) →
      (pollStep st d).1.progress = st.progress) ∧
    (∀ (st : ClientState) (d : ResultsResponse),
      d.status = .completed → d.results.isSome = true →
      (pollStep st d).1.progress = 100) := by
  refine ⟨?_, ?_, ?_⟩
  · intro n
    induction n with
    | zero =>
      intro p hp
      simpa using hp
    | succ k ih =>
      intro p hp
      rw [Function.iterate_succ_apply]
      apply ih
      unfold tickProgress
      split
      · exact hp
      · omega
  · intro st d hnot
    by_cases h2 : d.status = .error
    · simp [pollStep, hnot, h2]
    · simp [pollStep, hnot, h2]
  · intro st d h1 h2
    simp [pollStep, h1, h2]

theorem wizardIndex_le_three (s : Step) : wizardIndex s ≤ 3 := by
  cases s <;> simp [wizardIndex]

theorem handleStepClick_results (st : WizardState) (i : Nat)
    (h : handleStepClick st i = .results) : st.currentStep = .results := by
  unfold handleStepClick at h
  split at h
  · exact h
  · split at h
    · rename_i hl hlt
      have h3 := wizardIndex_le_three st.currentStep
      have hi : i < 3 := by omega
      interval_cases i <;> simp [wizardSteps, List.getD] at h
    · split at h
      · exact h
      · split at h
        · cases h
        · split at h
          · cases h
          · exact h

theorem handleStepClick_questionnaire_forward (st : WizardState) (i : Nat)
    (hc : wizardIndex st.currentStep < 1)
    (h : handleStepClick st i = .questionnaire) :
    st.field ≠ "" ∧ st.sessionId ≠ "" := by
  unfold handleStepClick at h
  split at h
  · rename_i hl
    rw [hl] at h
    cases h
  · split at h
    · rename_i hl hlt
      exact absurd hlt (by omega)
    · split at h
      · rw [h] at hc
        simp [wizardIndex] at hc
      · split at h
        · rename_i hcond
          exact ⟨hcond.2.1, hcond.2.2⟩
        · split at h
          · cases h
          · rw [h] at hc
            simp [wizardIndex] at hc

theorem handleStepClick_upload_forward (st : WizardState) (i : Nat)
    (hc : wizardIndex st.currentStep < 2)
    (h : handleStepClick st i = .upload) :
    st.questionnaireResponses ≠ [] := by
  unfold handleStepClick at h
  split at h
  · rename_i hl
    rw [hl] at h
    cases h
  · split at h
    · rename_i hl hlt
      have hi : i = 0 := by omega
      subst hi
      simp [wizardSteps, List.getD] at h
    · split at h
      · rw [h] at hc
        simp [wizardIndex] at hc
      · split at h
        · cases h
        · split at h
          · rename_i hcond
            exact hcond.2
          · rw [h] at hc
            simp [wizardIndex] at hc

theorem handleStepClick_back (st : WizardState) (i : Nat)
    (hl : st.currentStep ≠ .landing)
    (hi : (i : Int) < wizardIndex st.currentStep) :
    handleStepClick st i = wizardSteps.getD i st.currentStep := by
  unfold handleStepClick
  rw [if_neg hl, if_pos hi]

/-- Claim C10: progress-bar navigation never moves the wizard forward to the
results step (a results outcome means it was already the current step); it
moves forward to the questionnaire step only when both a field and a
sessionId are set; it moves forward to the upload step only when the
questionnaire responses map is non-empty; and a click on any earlier index
always moves back to that step. -/
theorem step_click_navigation_guards (st : WizardState) (stepIndex : Nat) :
    (handleStepClick st stepIndex = .results → st.currentStep = .results) ∧
    (wizardIndex st.currentStep < 1 →
      handleStepClick st stepIndex = .questionnaire →
      st.field ≠ "" ∧ st.sessionId ≠ "") ∧
    (wizardIndex st.currentStep < 2 →
      handleStepClick st stepIndex = .upload →
      st.questionnaireResponses ≠ []) ∧
    (st.currentStep ≠ .landing →
      (stepIndex : Int) < wizardIndex st.currentStep →
      handleStepClick st stepIndex =
        wizardSteps.getD stepIndex st.currentStep) :=
  ⟨handleStepClick_results st stepIndex,
   fun hc h => handleStepClick_questionnaire_forward st stepIndex hc h,
   fun hc h => handleStepClick_upload_forward st stepIndex hc h,
   fun hl hi => handleStepClick_back st stepIndex hl hi⟩

theorem demoStore5_reachable : Reachable demoStore5 := by
  unfold demoStore5 demoStore4 demoStore3 demoStore2 demoStore1
  exact .step _ (.step _ (.step _ (.step _ (.step _ .init))))

/-- Witness for C1 at the concrete demo run. -/
theorem analysis_success_completes_with_total_weeks_sum_witness :
    ∃ s' r,
      lookupS (finishAnalysis demoStore4 "s1" demoReply) "s1" = some s' ∧
      s'.status = .completed ∧ s'.results = some r ∧
      r.roadmap.total_weeks = sumDurations r.roadmap.milestones :=
  analysis_success_completes_with_total_weeks_sum demoStore4 "s1" demoSession4
    demoReply demoAnalysis demoMilestones "Feasible" rfl rfl rfl

/-- Witness for C2 at the completed demo session. -/
theorem terminal_status_blocks_mutation_witness :
    updateSession demoStore5 "s1" demoPatch = .error .invalidState ∧
    lookupS (applyOp demoStore5 (Op.analyze "s1")) "s1" = some demoSession5 :=
  ⟨(terminal_status_blocks_mutation demoStore5 "s1" demoSession5 rfl rfl).1
     demoPatch,
   (terminal_status_blocks_mutation demoStore5 "s1" demoSession5 rfl rfl).2
     (Op.analyze "s1") (by decide)⟩

/-- Witness for C3: analyzing the freshly created demo session (no answers,
no documents) fails without a state change. -/
theorem analyze_invalid_precondition_noop_witness :
    analyzeSession demoStore1 "s1" = .error .invalidState ∧
    applyOp demoStore1 (.analyze "s1") = demoStore1 :=
  analyze_invalid_precondition_noop demoStore1 "s1" demoSession1 rfl
    (Or.inr (Or.inl rfl))

/-- Witness for C4 at the completed demo session. -/
theorem results_read_payload_iff_completed_witness :
    demoResponse5.results.isSome = true ↔ demoSession5.status = .completed :=
  results_read_payload_iff_completed demoStore5 "s1" demoSession5 demoResponse5
    demoStore5_reachable rfl rfl

/-- Witness for C5 at concrete poll responses. -/
theorem error_status_stops_polling_and_shows_failure_witness :
    ((pollStep initialClientState demoErrorResp).2 = false ∧
     renderClient (pollStep initialClientState demoErrorResp).1 =
       .failureView "Analysis failed. Please try again.") ∧
    renderClient
        (pollTrace initialClientState [demoProcessingResp, demoErrorResp]) ≠
      .resultsView fallbackPayload :=
  ⟨error_status_stops_polling_and_shows_failure.1 initialClientState
     demoErrorResp rfl,
   error_status_stops_polling_and_shows_failure.2
     [demoProcessingResp, demoErrorResp] initialClientState rfl (by decide)
     fallbackPayload⟩

/-- Witness for C6: a `.exe` upload against the demo session. -/
theorem unsupported_extension_upload_rejected_witness :
    uploadDocuments demoStore3 "s1" [{ filename := "malware.exe" }] =
      .error .unsupportedType ∧
    lookupS
        (applyOp demoStore3 (.upload "s1" [{ filename := "malware.exe" }]))
        "s1" =
      some demoSession3 :=
  unsupported_extension_upload_rejected demoStore3 "s1" demoSession3
    [{ filename := "malware.exe" }] rfl
    ⟨{ filename := "malware.exe" }, by decide, by decide⟩

/-- Witness for C8 at the completed demo session. -/
theorem completed_likelihood_within_unit_interval_witness :
    ∃ r, demoSession5.results = some r ∧
      0 ≤ r.analysis.likelihood ∧ r.analysis.likelihood ≤ 1 :=
  completed_likelihood_within_unit_interval demoStore5 "s1" demoSession5
    demoStore5_reachable rfl rfl

/-- Witness for C9 at concrete tick counts and poll responses. -/
theorem progress_capped_at_95_until_completion_witness :
    Nat.iterate tickProgress 200 0 ≤ 95 ∧
    (pollStep initialClientState demoProcessingResp).1.progress =
      initialClientState.progress ∧
    (pollStep initialClientState demoCompletedResp).1.progress = 100 :=
  ⟨progress_capped_at_95_until_completion.1 200 0 (by decide),
   progress_capped_at_95_until_completion.2.1 initialClientState
     demoProcessingResp (by decide),
   progress_capped_at_95_until_completion.2.2 initialClientState
     demoCompletedResp rfl rfl⟩

/-- Witness for C10: a back click from the upload step. -/
theorem step_click_navigation_guards_witness :
    handleStepClick demoWizard 0 = wizardSteps.getD 0 demoWizard.currentStep :=
  (step_click_navigation_guards demoWizard 0).2.2.2 (by decide) (by decide)

end ProofOfTalent
